import Mathlib

/-! Verification of the IFC finder tutorial script.

A shallow embedding of `src/direct_ifc_query.ts`: the script wires a 3D
scene, loads an IFC file, builds an `IfcFinder` query group (one category
query and one property query, both `inclusive: false`), and exposes a small
UI that re-runs the queries and isolates the matching elements.

The query-evaluation library (`@thatopen/components`) and the JavaScript
`RegExp` engine are not part of this repository; their behaviour is modelled
from the specification (sections 3, 4.1 and 8) where noted.  The script's own
control flow (the startup isolation sequence, the `updateFinder` handler and
the phone-menu toggler) is embedded directly from the source.
-/

namespace DirectIfcQuery

/-! Patterns (JavaScript `RegExp`, modelled) -/

/-- A compiled regular-expression object: we keep the source string, as the
script does (`categoryRule.value.source` is read back into the UI). -/
structure RegExp where
  source : String
deriving DecidableEq, Repr

/-- Modelled from the spec: "if a rule pattern is malformed (e.g., invalid
expression), signals a validation error at rule-construction time".  A
pattern string is well formed when its groups `(`...`)` are balanced and no
escape `\` dangles at the end; this is a shallow model of the syntax checks
performed when a `RegExp` is constructed. -/
def checkPattern : List Char → Nat → Bool
  | [], d => d == 0
  | '\\' :: [], _ => false
  | '\\' :: _ :: rest, d => checkPattern rest d
  | '(' :: rest, d => checkPattern rest (d + 1)
  | ')' :: rest, d =>
    match d with
    | 0 => false
    | d' + 1 => checkPattern rest d'
  | _ :: rest, d => checkPattern rest d

/-- A pattern string is accepted by the (modelled) `RegExp` constructor. -/
def wellFormed (s : String) : Bool :=
  checkPattern s.data 0

/-- Modelled from the spec: `new RegExp(input)` either returns a compiled
pattern or throws at construction time. -/
def mkRegExp (s : String) : Option RegExp :=
  if wellFormed s then some ⟨s⟩ else none

/-- Does pattern character `p` match text character `c`?  `.` matches any
character (modelled `RegExp` fragment). -/
def charMatch (p c : Char) : Bool :=
  p == '.' || p == c

/-- Fuel-indexed matcher for the modelled `RegExp` fragment (literals, `.`
and postfix `*`), anchored at the start of the text.  Every step consumes
from the pattern or from the text, so `p.length + s.length + 1` fuel always
suffices; the fuel only makes the recursion structural. -/
def matchHereF : Nat → List Char → List Char → Bool
  | 0, _, _ => false
  | _ + 1, [], _ => true
  | fuel + 1, p :: '*' :: ps, s =>
    matchHereF fuel ps s ||
      (match s with
       | [] => false
       | c :: cs => charMatch p c && matchHereF fuel (p :: '*' :: ps) cs)
  | _ + 1, _ :: _, [] => false
  | fuel + 1, p :: ps, c :: cs => charMatch p c && matchHereF fuel ps cs

/-- Anchored match with sufficient fuel. -/
def matchHere (p s : List Char) : Bool :=
  matchHereF (p.length + s.length + 1) p s

/-- Unanchored search: the pattern may match at any position of the text,
like JavaScript `RegExp.prototype.test`. -/
def searchFrom : List Char → List Char → Bool
  | p, [] => matchHere p []
  | p, c :: cs => matchHere p (c :: cs) || searchFrom p cs

/-- Modelled from the spec: a rule "matches element type name against a
pattern" — `r.test s` decides whether pattern `r` occurs in string `s`. -/
def RegExp.test (r : RegExp) (s : String) : Bool :=
  searchFrom r.source.data s.data

/-! IFC elements and rules (data model, spec section 3) -/

/-- Modelled from the spec: a candidate IFC element as the evaluator sees it:
an identifier, a category (element type name) and a property set of
name/value entries. -/
structure IfcElement where
  id : Nat
  category : String
  props : List (String × String)
deriving DecidableEq, Repr

/-- A category rule: "matches element type name against a pattern". -/
structure IfcCategoryRule where
  value : RegExp
deriving DecidableEq, Repr

/-- A property rule: "matches a property-set entry's name and value against
patterns". -/
structure IfcPropertyRule where
  name : RegExp
  value : RegExp
deriving DecidableEq, Repr

/-- A rule is a typed predicate over IFC element attributes (tagged
variants, spec section 3). -/
inductive IfcFinderRule where
  | category (r : IfcCategoryRule)
  | property (r : IfcPropertyRule)
deriving DecidableEq, Repr

/-- Modelled from the spec: whether one rule is satisfied by one element. -/
def ruleSatisfied (r : IfcFinderRule) (e : IfcElement) : Bool :=
  match r with
  | .category r => r.value.test e.category
  | .property r => e.props.any fun p => r.name.test p.1 && r.value.test p.2

/-- A query: a name, an `inclusive` flag and a list of rules
(`IfcBasicQuery` / `IfcPropertyQuery` constructor arguments in the script). -/
structure IfcQuery where
  name : String
  inclusive : Bool
  rules : List IfcFinderRule
deriving DecidableEq, Repr

/-- Modelled from the spec: "combine rule results per the query's
`inclusive` flag (AND vs OR across rules)". -/
def queryMatches (q : IfcQuery) (e : IfcElement) : Bool :=
  if q.inclusive then q.rules.all fun r => ruleSatisfied r e
  else q.rules.any fun r => ruleSatisfied r e

/-! Query groups and result mappings (spec sections 3 and 4.1) -/

/-- A result mapping: "a mapping from model identifier to a set of matched
element identifiers"; entries are only present for models with at least one
match (`Object.keys(items).length === 0` holds exactly when nothing
matched). -/
def ResultMap := List (String × List Nat)
deriving DecidableEq, Repr

/-- The matched element set recorded for one model identifier (empty when
the identifier has no entry). -/
def lookupIds (r : ResultMap) (k : String) : List Nat :=
  match r.find? fun p => p.1 == k with
  | some p => p.2
  | none => []

/-- Insert a (non-empty) set of matched ids for a model identifier into a
result mapping, unioning with an existing entry for the same identifier. -/
def insertIds (k : String) (ids : List Nat) (r : ResultMap) : ResultMap :=
  match r with
  | [] => if ids.isEmpty then [] else [(k, ids)]
  | (k', ids') :: rest =>
    if k = k' then (k', ids'.union ids) :: rest
    else (k', ids') :: insertIds k ids rest

/-- Merge two result mappings key-wise (how `queryGroup.items` combines the
member queries' cached results). -/
def mergeResults (a b : ResultMap) : ResultMap :=
  a.foldr (fun p acc => insertIds p.1 p.2 acc) b

/-- All element identifiers appearing anywhere in a result mapping. -/
def allIds (r : ResultMap) : List Nat :=
  r.foldr (fun p acc => p.2.union acc) []

/-- Modelled from the spec: "evaluate every rule against every candidate
element" — the identifiers of the elements matching one query. -/
def queryIds (q : IfcQuery) (elems : List IfcElement) : List Nat :=
  (elems.filter fun e => queryMatches q e).map fun e => e.id

/-- Modelled from the spec: running one query over the loaded dataset of one
model produces that query's result mapping ("empty mapping if nothing
matches"). -/
def runQuery (q : IfcQuery) (modelID : String) (elems : List IfcElement) : ResultMap :=
  if (queryIds q elems).isEmpty then [] else [(modelID, queryIds q elems)]

/-- A query group: an ordered collection of queries (spec section 3). -/
structure QueryGroup where
  queries : List IfcQuery
deriving DecidableEq, Repr

/-- Modelled from the spec: evaluating a group means "evaluating each query
against the loaded dataset and combining matches (union)". -/
def groupEval (g : QueryGroup) (modelID : String) (elems : List IfcElement) : ResultMap :=
  g.queries.foldr (fun q acc => mergeResults (runQuery q modelID elems) acc) []

/-! The script state (`src/direct_ifc_query.ts`)

The script owns two mutable rule objects (`categoryRule`, `propertyRule`),
two queries holding them (`basicQuery`, `propertyQuery`, both
`inclusive: false`), each query's cached result, and the scene visibility
controlled by the `hider` component.  We collect this mutable state in one
record and embed each statement of the script as a state transformer. -/

structure AppState where
  categoryRule : IfcCategoryRule
  propertyRule : IfcPropertyRule
  basicCache : ResultMap
  propertyCache : ResultMap
  visibleIds : List Nat
deriving DecidableEq, Repr

/-- The `basicQuery` object: `new OBC.IfcBasicQuery(components, { name: "category",
inclusive: false, rules: [] })` followed by
`basicQuery.rules.push(categoryRule)` (source lines 160-177). -/
def basicQuery (st : AppState) : IfcQuery :=
  { name := "category", inclusive := false, rules := [.category st.categoryRule] }

/-- The `propertyQuery` object: `new OBC.IfcPropertyQuery(components, { name:
"property", inclusive: false, rules: [propertyRule] })` (source lines
183-193). -/
def propertyQuery (st : AppState) : IfcQuery :=
  { name := "property", inclusive := false, rules := [.property st.propertyRule] }

/-- The query group holding both queries, in the order the script adds them
(`queryGroup.add(basicQuery)`, `queryGroup.add(propertyQuery)`). -/
def scriptGroup (st : AppState) : QueryGroup :=
  { queries := [basicQuery st, propertyQuery st] }

/-- The call `await queryGroup.update(model.uuid, ifcFile)`: re-evaluates every
member query over the loaded dataset and stores each query's result in its
cache.  Modelled from the spec for the evaluation itself ("pure read-only
scan producing a result set"). -/
def groupUpdate (modelID : String) (elems : List IfcElement) (st : AppState) : AppState :=
  { st with
    basicCache := runQuery (basicQuery st) modelID elems
    propertyCache := runQuery (propertyQuery st) modelID elems }

/-- The getter `queryGroup.items`: the combination of the member queries' cached
results. -/
def groupItems (st : AppState) : ResultMap :=
  mergeResults st.basicCache st.propertyCache

/-- The call `hider.set(false)`: hide every element (source line 205). -/
def hiderSetAllHidden (st : AppState) : AppState :=
  { st with visibleIds := [] }

/-- The call `hider.set(true, items)`: make the elements of the result mapping
visible (source line 206). -/
def hiderSetVisible (items : ResultMap) (st : AppState) : AppState :=
  { st with visibleIds := st.visibleIds.union (allIds items) }

/-- The calls `basicQuery.clear()` and `propertyQuery.clear()`: drop the cached results
("results are ephemeral, discarded and recomputed on each update call"). -/
def clearQueries (st : AppState) : AppState :=
  { st with basicCache := [], propertyCache := [] }

/-- The state of the script's objects right after startup construction:
`categoryRule.value = /IfcWallStandardCase/`, `propertyRule = { name: /.*/,
value: /yeso/ }`, no cached results, nothing isolated yet. -/
def initialState : AppState :=
  { categoryRule := ⟨⟨"IfcWallStandardCase"⟩⟩
    propertyRule := ⟨⟨".*"⟩, ⟨"yeso"⟩⟩
    basicCache := []
    propertyCache := []
    visibleIds := [] }

/-! Observable events.

To reason about which calls a run performs (alerts, hider calls, the
evaluation itself), each embedded handler also returns the ordered trace of
its observable actions. -/

inductive Event where
  | clearedBasic
  | clearedProperty
  | setCategoryRule (r : RegExp)
  | setPropertyRule (r : RegExp)
  | evalStarted
  | alerted (msg : String)
  | hidAll
  | showed (items : ResultMap)
deriving DecidableEq, Repr

/-- The `updateFinder` handler (source lines 249-263), embedded statement by
statement:

```
basicQuery.clear();
propertyQuery.clear();
categoryRule.value = new RegExp(categoryInput.value);
propertyRule.value = new RegExp(propertyInput.value);
await queryGroup.update(model.uuid, ifcFile);
const items = queryGroup.items;
console.log(items);
if (Object.keys(items).length === 0) \x7b
  alert("No items found!");
  return;
\x7d
hider.set(false);
hider.set(true, items);
```

A malformed pattern makes the corresponding `RegExp` construction throw, so
the run ends there with an error and no further events.  The returned pair
is the event trace together with either the thrown message or the final
state. -/
def updateFinder (modelID : String) (elems : List IfcElement)
    (categoryInput propertyInput : String) (st : AppState) :
    List Event × Except String AppState :=
  let st1 := clearQueries st
  let ev1 := [Event.clearedBasic, Event.clearedProperty]
  match mkRegExp categoryInput with
  | none => (ev1, .error ("SyntaxError: invalid regular expression"))
  | some cr =>
    let st2 := { st1 with categoryRule := ⟨cr⟩ }
    let ev2 := ev1 ++ [Event.setCategoryRule cr]
    match mkRegExp propertyInput with
    | none => (ev2, .error ("SyntaxError: invalid regular expression"))
    | some pr =>
      let st3 := { st2 with propertyRule := { st2.propertyRule with value := pr } }
      let ev3 := ev2 ++ [Event.setPropertyRule pr]
      let st4 := groupUpdate modelID elems st3
      let ev4 := ev3 ++ [Event.evalStarted]
      let items := groupItems st4
      if items.isEmpty then
        (ev4 ++ [Event.alerted ("No items found!")], .ok st4)
      else
        let st5 := hiderSetVisible items (hiderSetAllHidden st4)
        (ev4 ++ [Event.hidAll, Event.showed items], .ok st5)

/-- The startup isolation sequence (source lines 201-206):

```
await queryGroup.update(model.uuid, ifcFile);
const items = queryGroup.items;
const hider = components.get(OBC.Hider);
hider.set(false);
hider.set(true, items);
```

Unlike `updateFinder`, there is no emptiness check here. -/
def startupIsolate (modelID : String) (elems : List IfcElement) (st : AppState) :
    List Event × AppState :=
  let st1 := groupUpdate modelID elems st
  let items := groupItems st1
  let st2 := hiderSetVisible items (hiderSetAllHidden st1)
  ([Event.evalStarted, Event.hidAll, Event.showed items], st2)

/-! Loading the IFC (source lines 143-153) -/

/-- The hard-coded resource URL of the single HTTP GET. -/
def ifcResourceURL : String :=
  "https://thatopen.github.io/engine_components/resources/small.ifc"

/-- An in-memory file: `new File([data], "example")` keeps a name and the
wrapped bytes. -/
structure MemFile where
  name : String
  data : List Nat
deriving DecidableEq, Repr

/-- The outcome of the load sequence: the byte buffer handed to the
geometry loader (`fragmentIfcLoader.load(buffer)`) and the in-memory file
handed to every `queryGroup.update` call. -/
structure LoadOutcome where
  loaderInput : List Nat
  ifcFile : MemFile
deriving DecidableEq, Repr

/-- The load sequence, parameterised by the bytes the single `fetch` of
`ifcResourceURL` returned:

```
const data = await fileResponse.arrayBuffer();
const buffer = new Uint8Array(data);
const model = await fragmentIfcLoader.load(buffer);
const ifcFile = new File([data], "example");
```

`new Uint8Array(data)` views the same bytes and `new File([data], ...)`
wraps them, so both fields hold the fetched bytes. -/
def loadSequence (fetchedBytes : List Nat) : LoadOutcome :=
  let data := fetchedBytes
  let buffer := data
  { loaderInput := buffer, ifcFile := { name := "example", data := data } }

/-! The phone-menu toggler (source lines 292-304) -/

/-- The CSS class toggled by the phone-menu button. -/
def optionsMenuVisible : String := "options-menu-visible"

/-- One click of the phone-menu toggler, acting on the panel's class set:

```
if (panel.classList.contains("options-menu-visible")) \x7b
  panel.classList.remove("options-menu-visible");
\x7d else \x7b
  panel.classList.add("options-menu-visible");
\x7d
```

`classList` is a set of class names (a `DOMTokenList` holds no
duplicates), modelled as a `Finset String`. -/
def togglePhoneMenu (classes : Finset String) : Finset String :=
  if optionsMenuVisible ∈ classes then classes.erase optionsMenuVisible
  else insert optionsMenuVisible classes

/-- The state of the script's objects at the point where `updateFinder` has
cleared both queries, overwritten both rule patterns from the text inputs
and re-run `queryGroup.update`, but has not yet tested the result for
emptiness. -/
def mutatedState (modelID : String) (elems : List IfcElement)
    (categoryInput propertyInput : String) (st : AppState) : AppState :=
  groupUpdate modelID elems
    { clearQueries st with
      categoryRule := ⟨⟨categoryInput⟩⟩
      propertyRule := { (clearQueries st).propertyRule with value := ⟨propertyInput⟩ } }

/-- The result mapping that `updateFinder` recomputes and then tests with
`Object.keys(items).length === 0`. -/
def recomputedItems (modelID : String) (elems : List IfcElement)
    (categoryInput propertyInput : String) (st : AppState) : ResultMap :=
  groupItems (mutatedState modelID elems categoryInput propertyInput st)

/-! Helper lemmas about result mappings. -/

theorem mem_list_union (xs ys : List Nat) (x : Nat) :
    x ∈ xs.union ys ↔ x ∈ xs ∨ x ∈ ys :=
  List.mem_union_iff

theorem lookupIds_nil (k : String) : lookupIds [] k = [] := rfl

theorem lookupIds_cons (k' : String) (ids' : List Nat) (rest : ResultMap) (k : String) :
    lookupIds ((k', ids') :: rest) k = if k' = k then ids' else lookupIds rest k := by
  by_cases h : k' = k
  · simp [lookupIds, List.find?_cons, h]
  · simp [lookupIds, List.find?_cons, h]

theorem mergeResults_nil (b : ResultMap) : mergeResults [] b = b := rfl

theorem mergeResults_cons (k : String) (ids : List Nat) (a b : ResultMap) :
    mergeResults ((k, ids) :: a) b = insertIds k ids (mergeResults a b) := rfl

theorem mem_lookup_insertIds (k : String) (ids : List Nat) (r : ResultMap) (x : Nat) :
    x ∈ lookupIds (insertIds k ids r) k ↔ x ∈ ids ∨ x ∈ lookupIds r k := by
  induction r with
  | nil =>
    by_cases h : ids.isEmpty
    · have hids : ids = [] := by simpa [List.isEmpty_iff] using h
      simp [insertIds, h, hids, lookupIds_nil]
    · simp [insertIds, h, lookupIds_cons, lookupIds_nil]
  | cons p rest ih =>
    obtain ⟨k', ids'⟩ := p
    by_cases h : k = k'
    · subst h
      simp [insertIds, lookupIds_cons, mem_list_union, or_comm]
    · have h' : ¬k' = k := fun hh => h hh.symm
      simp [insertIds, h, lookupIds_cons, h', ih]

theorem mem_lookup_runQuery (q : IfcQuery) (m : String) (elems : List IfcElement) (x : Nat) :
    x ∈ lookupIds (runQuery q m elems) m ↔ x ∈ queryIds q elems := by
  by_cases h : (queryIds q elems).isEmpty
  · have hids : queryIds q elems = [] := by simpa [List.isEmpty_iff] using h
    simp [runQuery, h, hids, lookupIds_nil]
  · simp [runQuery, h, lookupIds_cons]

theorem mergeResults_runQuery_nil (q : IfcQuery) (m : String) (elems : List IfcElement) :
    mergeResults (runQuery q m elems) [] = runQuery q m elems := by
  by_cases h : (queryIds q elems).isEmpty
  · simp [runQuery, h, mergeResults_nil]
  · simp [runQuery, h, mergeResults_cons, mergeResults_nil, insertIds]

theorem mem_lookup_groupEval_list (qs : List IfcQuery) (m : String)
    (elems : List IfcElement) (x : Nat) :
    x ∈ lookupIds (groupEval ⟨qs⟩ m elems) m ↔ ∃ q ∈ qs, x ∈ queryIds q elems := by
  induction qs with
  | nil => simp [groupEval, lookupIds_nil]
  | cons q qs ih =>
    have step : groupEval ⟨q :: qs⟩ m elems =
        mergeResults (runQuery q m elems) (groupEval ⟨qs⟩ m elems) := rfl
    rw [step]
    by_cases h : (queryIds q elems).isEmpty
    · have hids : queryIds q elems = [] := by simpa [List.isEmpty_iff] using h
      simp [runQuery, h, mergeResults_nil, ih, hids]
    · simp [runQuery, h, mergeResults_cons, mergeResults_nil,
        mem_lookup_insertIds, ih]

theorem groupItems_groupUpdate (m : String) (elems : List IfcElement) (st : AppState) :
    groupItems (groupUpdate m elems st) = groupEval (scriptGroup st) m elems := by
  show mergeResults (runQuery (basicQuery st) m elems) (runQuery (propertyQuery st) m elems) =
    mergeResults (runQuery (basicQuery st) m elems)
      (mergeResults (runQuery (propertyQuery st) m elems) [])
  rw [mergeResults_runQuery_nil]

theorem mem_queryIds (q : IfcQuery) (elems : List IfcElement) (x : Nat) :
    x ∈ queryIds q elems ↔ ∃ e ∈ elems, queryMatches q e = true ∧ e.id = x := by
  simp [queryIds, List.mem_map, List.mem_filter, and_assoc]

/-- When both text inputs hold well-formed patterns, `updateFinder` reduces
to the emptiness test on the recomputed result mapping. -/
theorem updateFinder_wf_eq (m : String) (elems : List IfcElement)
    (ci pin : String) (st : AppState)
    (hc : wellFormed ci = true) (hp : wellFormed pin = true) :
    updateFinder m elems ci pin st =
      (if (recomputedItems m elems ci pin st).isEmpty then
        ([Event.clearedBasic, Event.clearedProperty, Event.setCategoryRule ⟨ci⟩,
          Event.setPropertyRule ⟨pin⟩, Event.evalStarted,
          Event.alerted ("No items found!")],
         Except.ok (mutatedState m elems ci pin st))
      else
        ([Event.clearedBasic, Event.clearedProperty, Event.setCategoryRule ⟨ci⟩,
          Event.setPropertyRule ⟨pin⟩, Event.evalStarted, Event.hidAll,
          Event.showed (recomputedItems m elems ci pin st)],
         Except.ok (hiderSetVisible (recomputedItems m elems ci pin st)
           (hiderSetAllHidden (mutatedState m elems ci pin st))))) := by
  have h1 : mkRegExp ci = some ⟨ci⟩ := by simp [mkRegExp, hc]
  have h2 : mkRegExp pin = some ⟨pin⟩ := by simp [mkRegExp, hp]
  rw [updateFinder, h1, h2]
  rfl

/-- C1: in a user-triggered re-evaluation via `updateFinder` (with both
input patterns well formed, so that neither `RegExp` construction throws),
if the recomputed result mapping is empty then the user is alerted and no
`hider.set` call is made on that run; if it is non-empty then no alert is
raised and the visibility update (`hider.set(false)` followed by
`hider.set(true, items)`) is applied. -/
theorem updateFinder_zero_match_guard (m : String) (elems : List IfcElement)
    (ci pin : String) (st : AppState)
    (hc : wellFormed ci = true) (hp : wellFormed pin = true) :
    (recomputedItems m elems ci pin st = [] →
      Event.alerted ("No items found!") ∈ (updateFinder m elems ci pin st).1 ∧
      Event.hidAll ∉ (updateFinder m elems ci pin st).1 ∧
      ∀ it : ResultMap, Event.showed it ∉ (updateFinder m elems ci pin st).1) ∧
    (recomputedItems m elems ci pin st ≠ [] →
      (∀ msg : String, Event.alerted msg ∉ (updateFinder m elems ci pin st).1) ∧
      Event.hidAll ∈ (updateFinder m elems ci pin st).1 ∧
      Event.showed (recomputedItems m elems ci pin st) ∈
        (updateFinder m elems ci pin st).1) := by
  rw [updateFinder_wf_eq m elems ci pin st hc hp]
  constructor
  · intro hempty
    simp [hempty]
  · intro hne
    rcases h : (recomputedItems m elems ci pin st).isEmpty with _ | _
    · simp [h]
    · exact absurd (by simpa [List.isEmpty_iff] using h) hne

/-- Closed instance of `updateFinder_zero_match_guard`: over the empty
dataset the recomputed mapping is empty, so the run alerts and performs no
hider call. -/
theorem updateFinder_zero_match_guard_witness :
    (Event.alerted ("No items found!") ∈
      (updateFinder ("m1") [] ("IfcWallStandardCase") ("yeso") initialState).1 ∧
     Event.hidAll ∉
      (updateFinder ("m1") [] ("IfcWallStandardCase") ("yeso") initialState).1) ∧
    (Event.hidAll ∈
      (updateFinder ("m1") [⟨1, "IfcWallStandardCase", []⟩] ("IfcWallStandardCase")
        ("yeso") initialState).1 ∧
     ∀ msg : String, Event.alerted msg ∉
      (updateFinder ("m1") [⟨1, "IfcWallStandardCase", []⟩] ("IfcWallStandardCase")
        ("yeso") initialState).1) :=
  ⟨⟨((updateFinder_zero_match_guard ("m1") [] ("IfcWallStandardCase") ("yeso")
      initialState rfl rfl).1 rfl).1,
    ((updateFinder_zero_match_guard ("m1") [] ("IfcWallStandardCase") ("yeso")
      initialState rfl rfl).1 rfl).2.1⟩,
   ⟨((updateFinder_zero_match_guard ("m1") [⟨1, "IfcWallStandardCase", []⟩]
      ("IfcWallStandardCase") ("yeso") initialState rfl rfl).2 (by decide)).2.1,
    ((updateFinder_zero_match_guard ("m1") [⟨1, "IfcWallStandardCase", []⟩]
      ("IfcWallStandardCase") ("yeso") initialState rfl rfl).2 (by decide)).1⟩⟩

/-- C5: a malformed pattern in either text field makes `updateFinder` fail
while the corresponding `RegExp` is constructed, before `queryGroup.update`
is ever reached (no `evalStarted` event); a well-formed pattern always
constructs successfully, and with two well-formed patterns the run never
throws. -/
theorem pattern_error_at_construction (m : String) (elems : List IfcElement)
    (ci pin : String) (st : AppState) :
    (mkRegExp ci = none ∨ mkRegExp pin = none →
      (∃ e : String, (updateFinder m elems ci pin st).2 = Except.error e) ∧
      Event.evalStarted ∉ (updateFinder m elems ci pin st).1) ∧
    (∀ s : String, wellFormed s = true → mkRegExp s = some ⟨s⟩) ∧
    (wellFormed ci = true → wellFormed pin = true →
      ∃ st' : AppState, (updateFinder m elems ci pin st).2 = Except.ok st') := by
  refine ⟨?_, fun s hs => by simp [mkRegExp, hs], fun hc hp => ?_⟩
  · intro h
    rcases hci : mkRegExp ci with _ | cr
    · rw [updateFinder, hci]
      exact ⟨⟨_, rfl⟩, by simp⟩
    · rcases h with h | h
      · exact absurd hci (by simp [h])
      · rw [updateFinder, hci, h]
        exact ⟨⟨_, rfl⟩, by simp⟩
  · rw [updateFinder_wf_eq m elems ci pin st hc hp]
    rcases h : (recomputedItems m elems ci pin st).isEmpty with _ | _
    · simp [h]
    · simp [h]

/-- Closed instance of `pattern_error_at_construction`: the input `"("` is
rejected when its `RegExp` is built, and evaluation is never started. -/
theorem pattern_error_at_construction_witness :
    ((∃ e : String,
      (updateFinder ("m1") [] ("(") ("yeso") initialState).2 = Except.error e) ∧
     Event.evalStarted ∉ (updateFinder ("m1") [] ("(") ("yeso") initialState).1) ∧
    mkRegExp ("yeso") = some ⟨"yeso"⟩ ∧
    (∃ st' : AppState,
      (updateFinder ("m1") [] ("yeso") ("yeso") initialState).2 = Except.ok st') :=
  ⟨(pattern_error_at_construction ("m1") [] ("(") ("yeso") initialState).1
      (Or.inl rfl),
   (pattern_error_at_construction ("m1") [] ("(") ("yeso") initialState).2.1
      ("yeso") rfl,
   (pattern_error_at_construction ("m1") [] ("yeso") ("yeso") initialState).2.2
      rfl rfl⟩

/-- C9: the zero-match early return of `updateFinder` is not atomic with
respect to query state: even in the run that alerts and leaves visibility
unchanged, both queries have already been cleared and both rule patterns
have already been overwritten from the text inputs (the trace shows the
mutations before the emptiness check, and the returned state keeps them). -/
theorem updateFinder_mutation_before_guard (m : String) (elems : List IfcElement)
    (ci pin : String) (st : AppState)
    (hc : wellFormed ci = true) (hp : wellFormed pin = true)
    (hempty : recomputedItems m elems ci pin st = []) :
    (updateFinder m elems ci pin st).1 =
      [Event.clearedBasic, Event.clearedProperty, Event.setCategoryRule ⟨ci⟩,
       Event.setPropertyRule ⟨pin⟩, Event.evalStarted,
       Event.alerted ("No items found!")] ∧
    (updateFinder m elems ci pin st).2 =
      Except.ok (mutatedState m elems ci pin st) ∧
    (mutatedState m elems ci pin st).categoryRule = ⟨⟨ci⟩⟩ ∧
    (mutatedState m elems ci pin st).propertyRule.value = ⟨pin⟩ ∧
    (mutatedState m elems ci pin st).propertyRule.name = st.propertyRule.name ∧
    (mutatedState m elems ci pin st).visibleIds = st.visibleIds := by
  rw [updateFinder_wf_eq m elems ci pin st hc hp]
  refine ⟨?_, ?_, rfl, rfl, rfl, rfl⟩ <;> simp [hempty]

/-- Closed instance of `updateFinder_mutation_before_guard`: a zero-match
run over one non-matching element still rewrites the category rule and
leaves visibility untouched. -/
theorem updateFinder_mutation_before_guard_witness :
    (mutatedState ("m1") [⟨7, "IfcDoor", []⟩] ("IfcWindow") ("yeso")
        initialState).categoryRule = ⟨⟨"IfcWindow"⟩⟩ ∧
    (mutatedState ("m1") [⟨7, "IfcDoor", []⟩] ("IfcWindow") ("yeso")
        initialState).visibleIds = initialState.visibleIds :=
  let h := updateFinder_mutation_before_guard ("m1") [⟨7, "IfcDoor", []⟩]
    ("IfcWindow") ("yeso") initialState rfl rfl rfl
  ⟨h.2.2.1, h.2.2.2.2.2⟩

/-- C2: with `inclusive = true` an element matches a query exactly when it
satisfies every rule of the query; with `inclusive = false` it matches
exactly when it satisfies at least one rule; and both queries the script
constructs (`basicQuery` and `propertyQuery`) carry `inclusive: false`. -/
theorem query_inclusive_semantics :
    (∀ (q : IfcQuery) (e : IfcElement), q.inclusive = true →
      (queryMatches q e = true ↔ ∀ r ∈ q.rules, ruleSatisfied r e = true)) ∧
    (∀ (q : IfcQuery) (e : IfcElement), q.inclusive = false →
      (queryMatches q e = true ↔ ∃ r ∈ q.rules, ruleSatisfied r e = true)) ∧
    (∀ st : AppState,
      (basicQuery st).inclusive = false ∧ (propertyQuery st).inclusive = false) := by
  refine ⟨fun q e h => ?_, fun q e h => ?_, fun st => ⟨rfl, rfl⟩⟩
  · simp [queryMatches, h, List.all_eq_true]
  · simp [queryMatches, h, List.any_eq_true]

/-- Closed instance of `query_inclusive_semantics` at the script's category
query (`inclusive = false`) and a concrete wall element. -/
theorem query_inclusive_semantics_witness :
    (queryMatches (basicQuery initialState) ⟨1, "IfcWallStandardCase", []⟩ = true ↔
      ∃ r ∈ (basicQuery initialState).rules,
        ruleSatisfied r ⟨1, "IfcWallStandardCase", []⟩ = true) ∧
    (queryMatches ⟨"conj", true, []⟩ ⟨1, "IfcWallStandardCase", []⟩ = true ↔
      ∀ r ∈ ([] : List IfcFinderRule),
        ruleSatisfied r ⟨1, "IfcWallStandardCase", []⟩ = true) ∧
    (basicQuery initialState).inclusive = false :=
  ⟨query_inclusive_semantics.2.1 (basicQuery initialState)
      ⟨1, "IfcWallStandardCase", []⟩ rfl,
    query_inclusive_semantics.1 ⟨"conj", true, []⟩
      ⟨1, "IfcWallStandardCase", []⟩ rfl,
    (query_inclusive_semantics.2.2 initialState).1⟩

/-- C3: the result of evaluating a query group over a loaded dataset is the
union of the member queries' match sets, and in the script's group (category
query plus property query) an element identifier appears in the combined
result exactly when either query matches it. -/
theorem queryGroup_result_is_union :
    (∀ (g : QueryGroup) (m : String) (elems : List IfcElement) (x : Nat),
      x ∈ lookupIds (groupEval g m elems) m ↔
        ∃ q ∈ g.queries, x ∈ queryIds q elems) ∧
    (∀ (st : AppState) (m : String) (elems : List IfcElement) (x : Nat),
      x ∈ lookupIds (groupItems (groupUpdate m elems st)) m ↔
        x ∈ queryIds (basicQuery st) elems ∨
          x ∈ queryIds (propertyQuery st) elems) := by
  constructor
  · intro g m elems x
    obtain ⟨qs⟩ := g
    exact mem_lookup_groupEval_list qs m elems x
  · intro st m elems x
    rw [groupItems_groupUpdate]
    show x ∈ lookupIds (groupEval ⟨[basicQuery st, propertyQuery st]⟩ m elems) m ↔ _
    rw [mem_lookup_groupEval_list]
    simp

/-- C4: re-running `queryGroup.update` with the group's queries and rules
unchanged and the same dataset leaves the state fixed, and in particular the
result mapping read from `queryGroup.items` after the second run equals the
one after the first run. -/
theorem queryGroup_update_idempotent (m : String) (elems : List IfcElement)
    (st : AppState) :
    groupUpdate m elems (groupUpdate m elems st) = groupUpdate m elems st ∧
    groupItems (groupUpdate m elems (groupUpdate m elems st)) =
      groupItems (groupUpdate m elems st) :=
  ⟨rfl, rfl⟩

/-- C6: `queryGroup.update` has no effect on scene visibility or on the rule
state — it only rewrites the cached result mappings — and every visibility
change is performed afterwards by the hider component applied to the
returned result set. -/
theorem groupUpdate_no_scene_side_effect (m : String) (elems : List IfcElement)
    (st : AppState) (items : ResultMap) :
    (groupUpdate m elems st).visibleIds = st.visibleIds ∧
    (groupUpdate m elems st).categoryRule = st.categoryRule ∧
    (groupUpdate m elems st).propertyRule = st.propertyRule ∧
    (hiderSetVisible items (hiderSetAllHidden (groupUpdate m elems st))).visibleIds =
      allIds items :=
  ⟨rfl, rfl, rfl, rfl⟩

/-- C7: the in-memory file passed to the evaluator wraps exactly the bytes
the single fetch returned, and the geometry loader receives those same
bytes. -/
theorem ifcFile_wraps_fetched_bytes (fetchedBytes : List Nat) :
    (loadSequence fetchedBytes).ifcFile.data = fetchedBytes ∧
    (loadSequence fetchedBytes).loaderInput = fetchedBytes ∧
    (loadSequence fetchedBytes).ifcFile.data =
      (loadSequence fetchedBytes).loaderInput ∧
    (loadSequence fetchedBytes).ifcFile.name = "example" :=
  ⟨rfl, rfl, rfl, rfl⟩

/-- C8: the startup isolation sequence applies the visibility change
unconditionally — after the first `queryGroup.update` it always performs
`hider.set(false)` then `hider.set(true, items)` with no emptiness check, so
a zero-match startup run leaves every element hidden. -/
theorem startup_unconditional_isolation (m : String) (elems : List IfcElement)
    (st : AppState) :
    (startupIsolate m elems st).1 =
      [Event.evalStarted, Event.hidAll,
       Event.showed (groupItems (groupUpdate m elems st))] ∧
    (startupIsolate m elems st).2 =
      hiderSetVisible (groupItems (groupUpdate m elems st))
        (hiderSetAllHidden (groupUpdate m elems st)) ∧
    (groupItems (groupUpdate m elems st) = [] →
      (startupIsolate m elems st).2.visibleIds = []) := by
  refine ⟨rfl, rfl, fun h => ?_⟩
  show ([] : List Nat).union (allIds (groupItems (groupUpdate m elems st))) = []
  rw [h]
  rfl

/-- Closed instance of `startup_unconditional_isolation`: a startup run over
the empty dataset ends with nothing visible. -/
theorem startup_unconditional_isolation_witness :
    (startupIsolate ("m1") [] initialState).2.visibleIds = [] :=
  (startup_unconditional_isolation ("m1") [] initialState).2.2 rfl

/-- C10: one click of the phone-menu toggler removes the
`options-menu-visible` class when it is present and adds it when it is
absent, so two consecutive clicks restore the panel's class set. -/
theorem phone_menu_toggle_involution (classes : Finset String) :
    (optionsMenuVisible ∈ classes →
      togglePhoneMenu classes = classes.erase optionsMenuVisible) ∧
    (optionsMenuVisible ∉ classes →
      togglePhoneMenu classes = insert optionsMenuVisible classes) ∧
    togglePhoneMenu (togglePhoneMenu classes) = classes := by
  by_cases h : optionsMenuVisible ∈ classes
  · refine ⟨fun _ => ?_, fun hn => absurd h hn, ?_⟩
    · simp [togglePhoneMenu, h]
    · simp [togglePhoneMenu, h, Finset.not_mem_erase, Finset.insert_erase]
  · refine ⟨fun hmem => absurd hmem h, fun _ => ?_, ?_⟩
    · simp [togglePhoneMenu, h]
    · simp [togglePhoneMenu, h, Finset.mem_insert_self, Finset.erase_insert]

/-- Closed instance of `phone_menu_toggle_involution` at the empty class
set: the first click adds the class and the second removes it again. -/
theorem phone_menu_toggle_involution_witness :
    togglePhoneMenu ∅ = insert optionsMenuVisible ∅ ∧
    togglePhoneMenu {optionsMenuVisible} =
      Finset.erase {optionsMenuVisible} optionsMenuVisible ∧
    togglePhoneMenu (togglePhoneMenu ∅) = ∅ :=
  ⟨(phone_menu_toggle_involution ∅).2.1 (Finset.not_mem_empty _),
    (phone_menu_toggle_involution {optionsMenuVisible}).1
      (Finset.mem_singleton_self _),
    (phone_menu_toggle_involution ∅).2.2⟩

end DirectIfcQuery
